import Mathlib

/-!
Verification of the OpenNURBS object-identity and user-data layer
(`opennurbs_object.h`): run-time type descriptors (`ON_ClassId`), the
macro-generated `Cast` / `CopyFrom` / `Duplicate` members of `ON_Object`
subclasses, the user-data attachment and merge subsystem, the generation-tagged
descriptor registry, and the aggregate component-status cache.

The header declares the surface; the bodies of `ON_ClassId::IsDerivedFrom`,
`ON_ClassId::Purge`, `ON_ClassId::Create`, `ON_Object::AttachUserData`,
`ON_Object::CopyUserData` / `MoveUserData`, `ON_Object::EmergencyDestroy` and
the component-status cache live in `opennurbs_object.cpp`, which is not among
the sources; those parts are modelled from the specification (and from the
header's own doc comments), as noted on each definition.  The implementation
macros `ON_VIRTUAL_OBJECT_IMPLEMENT`, `ON_OBJECT_IMPLEMENT`,
`ON_OBJECT_IMPLEMENT_NO_COPYCTOR` and `ON_OBJECT_IMPLEMENT_NO_COPY` carry full
function bodies in the header and are embedded directly from that code.
-/

namespace OpenNURBS

/-- Which implementation macro a class derived from `ON_Object` uses: exactly
one of `ON_VIRTUAL_OBJECT_IMPLEMENT`, `ON_OBJECT_IMPLEMENT`,
`ON_OBJECT_IMPLEMENT_NO_COPYCTOR`, `ON_OBJECT_IMPLEMENT_NO_COPY`. -/
inductive ImplKind where
  | virtualObj
  | objectImpl
  | noCopyCtor
  | noCopy
deriving DecidableEq, Repr

/-- A type descriptor (`ON_ClassId`).  `m_pBaseClassId` is embedded
structurally, so every base chain is finite and ends at a root descriptor,
which is exactly the registration invariant of the source (the chain of
`ON_ClassId` objects built by the implementation macros is acyclic and rooted
at the descriptor of `ON_Object`).  The uuid models `m_uuid`; the `ImplKind`
records which implementation macro generated the class members. -/
inductive ClassId where
  | root (uuid : Nat) (kind : ImplKind)
  | derived (uuid : Nat) (kind : ImplKind) (base : ClassId)
deriving DecidableEq, Repr

namespace ClassId

/-- The `m_pBaseClassId` field: none for the root descriptor. -/
def base : ClassId → Option ClassId
  | .root _ _ => none
  | .derived _ _ b => some b

/-- Which implementation macro generated the class. -/
def kind : ClassId → ImplKind
  | .root _ k => k
  | .derived _ k _ => k

/-- The descriptor together with all its ancestors, in base-chain order. -/
def baseChain : ClassId → List ClassId
  | .root u k => [.root u k]
  | .derived u k b => .derived u k b :: b.baseChain

/-- Modelled from the spec: the body of `ON_ClassId::IsDerivedFrom` is in
`opennurbs_object.cpp`, which is not among the sources.  The spec describes it
as walking the subject's base-chain (the subject counts as derived from
itself) until the potential parent is matched or the chain is exhausted at the
root. -/
def IsDerivedFrom : ClassId → ClassId → Bool
  | .root u k, target =>
      if ClassId.root u k = target then true else false
  | .derived u k b, target =>
      if ClassId.derived u k b = target then true else b.IsDerivedFrom target

/-- Whether the descriptor stores a factory (`m_create`).  The implementation
macros in the header show that `ON_VIRTUAL_OBJECT_IMPLEMENT` passes the null
pointer `0` as the create function while the three other implementation macros
pass `CreateNew<cls>`, a function that default-constructs the class. -/
def hasFactory (c : ClassId) : Bool :=
  match c.kind with
  | .virtualObj => false
  | _ => true

end ClassId

/-- An instantiated object of the hierarchy.  `typeId` is the descriptor
returned by the virtual `ClassId()` member generated by the implementation
macro of the object's most derived class; `state` stands for the rest of the
object's data members, the part copied by `operator=` and the copy
constructor. -/
structure Obj where
  typeId : ClassId
  state : Int
deriving DecidableEq, Repr

namespace Obj

/-- `ON_Object::IsKindOf(pClassId)` delegates to
`ClassId()->IsDerivedFrom(pClassId)`. -/
def IsKindOf (o : Obj) (c : ClassId) : Bool :=
  o.typeId.IsDerivedFrom c

end Obj

/-- The static `cls::Cast(ON_Object* p)` generated by every implementation
macro: `return (p && p->IsKindOf(&cls::m_cls_class_rtti)) ? static_cast<cls*>(p) : nullptr;`,
where the rtti argument is the descriptor of the class the macro was expanded
for. -/
def Cast (c : ClassId) (p : Option Obj) : Option Obj :=
  match p with
  | none => none
  | some o => if o.IsKindOf c then some o else none

namespace Obj

/-- `operator=`: assigns the data members visible at the class. -/
def assign (o s : Obj) : Obj :=
  { o with state := s.state }

/-- The virtual `CopyFrom(const ON_Object* src)`.  Dynamic dispatch selects
the override generated by the implementation macro of `o`'s most derived
class, so the macro's `cls` is `o.typeId`:
`ON_VIRTUAL_OBJECT_IMPLEMENT` and `ON_OBJECT_IMPLEMENT_NO_COPY` generate
`{ return false; }`; `ON_OBJECT_IMPLEMENT` and `ON_OBJECT_IMPLEMENT_NO_COPYCTOR`
generate `{ const cls* s = cls::Cast(src); if (this && s) { *this = *s; return true; } return false; }`. -/
def CopyFrom (o : Obj) (src : Option Obj) : Bool × Obj :=
  match o.typeId.kind with
  | .virtualObj => (false, o)
  | .noCopy => (false, o)
  | .objectImpl | .noCopyCtor =>
      match Cast o.typeId src with
      | some s => (true, o.assign s)
      | none => (false, o)

/-- The virtual helper `Internal_DeepCopy()` generated by the implementation
macros: `ON_VIRTUAL_OBJECT_IMPLEMENT` and `ON_OBJECT_IMPLEMENT_NO_COPY`
return `nullptr`; `ON_OBJECT_IMPLEMENT` returns `new cls(*this)` (copy
constructor); `ON_OBJECT_IMPLEMENT_NO_COPYCTOR` returns a default-constructed
object assigned from `*this` via `operator=`. -/
def Internal_DeepCopy (o : Obj) : Option Obj :=
  match o.typeId.kind with
  | .virtualObj => none
  | .noCopy => none
  | .objectImpl => some o
  | .noCopyCtor => some o

/-- `cls::Duplicate()`: `ON_OBJECT_IMPLEMENT_NO_COPY` generates
`{ return nullptr; }`; every other implementation macro generates
`{ return static_cast<cls*>(this->Internal_DeepCopy()); }`. -/
def Duplicate (o : Obj) : Option Obj :=
  match o.typeId.kind with
  | .noCopy => none
  | _ => o.Internal_DeepCopy

end Obj

/-- Modelled from the spec: the body of `ON_ClassId::Create` is in
`opennurbs_object.cpp`, which is not among the sources.  The spec says it
"invokes the stored factory if present; returns none for descriptors with no
factory", and the macros in the header show that the stored factory, when
present, default-constructs an object of the class, so the created object's
`ClassId()` is the descriptor itself. -/
def ClassId.Create (c : ClassId) : Option Obj :=
  if c.hasFactory then some { typeId := c, state := 0 } else none

/-- Whether the class's `CopyFrom` override was generated by a macro that
actually copies (`ON_OBJECT_IMPLEMENT` or `ON_OBJECT_IMPLEMENT_NO_COPYCTOR`). -/
def ClassId.copyAssignable (c : ClassId) : Bool :=
  match c.kind with
  | .objectImpl | .noCopyCtor => true
  | _ => false

section TypeIdentityTheorems

/-- Helper: the base-chain walk of `IsDerivedFrom` finds exactly the members
of the base chain. -/
theorem isDerivedFrom_iff_mem_baseChain (s a : ClassId) :
    s.IsDerivedFrom a = true ↔ a ∈ s.baseChain := by
  induction s with
  | root u k =>
      simp only [ClassId.IsDerivedFrom, ClassId.baseChain, List.mem_singleton]
      by_cases h : ClassId.root u k = a
      · simp [h]
      · simp [h]
        exact fun hh => h hh.symm
  | derived u k b ih =>
      simp only [ClassId.IsDerivedFrom, ClassId.baseChain, List.mem_cons]
      by_cases h : ClassId.derived u k b = a
      · simp [h]
      · simp only [if_neg h]
        rw [ih]
        constructor
        · exact fun hm => Or.inr hm
        · rintro (hm | hm)
          · exact absurd hm.symm h
          · exact hm

/-- Helper: every descriptor is a member of its own base chain. -/
theorem self_mem_baseChain (s : ClassId) : s ∈ s.baseChain := by
  cases s with
  | root u k => simp [ClassId.baseChain]
  | derived u k b => simp [ClassId.baseChain]

/-- Example hierarchy mirroring the spec's Root ← Shape ← Circle: an abstract
root, an abstract Shape (virtual-object macro, no factory), a concrete Circle
(copy-constructor macro) and a concrete Disc derived from Circle. -/
def rootC : ClassId := .root 0 .virtualObj

/-- Abstract Shape descriptor, implemented with `ON_VIRTUAL_OBJECT_IMPLEMENT`. -/
def shapeC : ClassId := .derived 1 .virtualObj rootC

/-- Concrete Circle descriptor, implemented with `ON_OBJECT_IMPLEMENT`. -/
def circleC : ClassId := .derived 2 .objectImpl shapeC

/-- Concrete descriptor derived from Circle, implemented with
`ON_OBJECT_IMPLEMENT`. -/
def discC : ClassId := .derived 3 .objectImpl circleC

/-- An object whose most derived class is Shape. -/
def objShape : Obj := { typeId := shapeC, state := 0 }

/-- An object whose most derived class is Circle. -/
def objCircle : Obj := { typeId := circleC, state := 0 }

/-- An object whose most derived class is Disc. -/
def objDisc : Obj := { typeId := discC, state := 7 }

/-- C4: `IsDerivedFrom(subject, ancestor)` walks the subject's base chain and
returns true exactly when the ancestor appears on it, in particular
`IsDerivedFrom(T, T)` is true for every descriptor, and it returns false when
the chain is exhausted at the root without a match.  Termination is inherent:
the function is a total structural recursion over the base chain. -/
theorem isDerivedFrom_spec (s a : ClassId) :
    (s.IsDerivedFrom a = true ↔ a ∈ s.baseChain)
    ∧ s.IsDerivedFrom s = true
    ∧ (a ∉ s.baseChain → s.IsDerivedFrom a = false) := by
  refine ⟨isDerivedFrom_iff_mem_baseChain s a, ?_, ?_⟩
  · exact (isDerivedFrom_iff_mem_baseChain s s).mpr (self_mem_baseChain s)
  · intro hnot
    by_contra hne
    exact hnot ((isDerivedFrom_iff_mem_baseChain s a).mp (by
      cases h : s.IsDerivedFrom a with
      | true => rfl
      | false => exact absurd h hne))

/-- Witness for C4 at the spec's own example chain Root ← Shape ← Circle. -/
theorem isDerivedFrom_spec_witness :
    circleC.IsDerivedFrom shapeC = true
    ∧ circleC.IsDerivedFrom rootC = true
    ∧ shapeC.IsDerivedFrom circleC = false :=
  ⟨((isDerivedFrom_spec circleC shapeC).1).mpr (by decide),
   ((isDerivedFrom_spec circleC rootC).1).mpr (by decide),
   (isDerivedFrom_spec shapeC circleC).2.2 (by decide)⟩

/-- C9: for every class implemented with one of the implementation macros,
`Cast(p)` returns `p` exactly when `p` is non-null and `p->IsKindOf` of the
class's descriptor holds, returns null otherwise, and `Cast` of a null pointer
is always null. -/
theorem cast_spec (c : ClassId) (o : Obj) :
    (Cast c (some o) = some o ↔ o.IsKindOf c = true)
    ∧ (o.IsKindOf c = false → Cast c (some o) = none)
    ∧ Cast c (none : Option Obj) = none := by
  refine ⟨?_, ?_, rfl⟩
  · by_cases h : o.IsKindOf c = true <;> simp [Cast, h]
  · intro h
    simp [Cast, h]

/-- Witness for C9: a Disc pointer casts to Circle, a Shape pointer does not
cast to Circle. -/
theorem cast_spec_witness :
    Cast circleC (some objDisc) = some objDisc
    ∧ Cast circleC (some objShape) = none :=
  ⟨(cast_spec circleC objDisc).1.mpr (by decide),
   (cast_spec circleC objShape).2.1 (by decide)⟩

/-- C3: `Create(d)` returns none exactly when the descriptor stores no factory
(the virtual-object macro passes a null create function), and when a factory is
stored it returns a new object whose `TypeId()` equals `d` and which
`IsKindOf` every ancestor of `d`. -/
theorem create_spec (d : ClassId) :
    (d.Create = none ↔ d.hasFactory = false)
    ∧ (∀ e, d.Create = some e →
          e.typeId = d ∧ ∀ a ∈ d.baseChain, e.IsKindOf a = true) := by
  constructor
  · by_cases h : d.hasFactory = true <;> simp [ClassId.Create, h]
  · intro e he
    by_cases h : d.hasFactory = true
    · simp only [ClassId.Create, h, if_true, Option.some.injEq] at he
      subst he
      refine ⟨rfl, fun a ha => ?_⟩
      exact (isDerivedFrom_iff_mem_baseChain d a).mpr ha
    · simp [ClassId.Create, h] at he

/-- Witness for C3 at the spec's example: Shape has no factory so `Create`
returns none; Circle has one, and the created object has Circle's type id and
is a kind of Shape. -/
theorem create_spec_witness :
    shapeC.Create = none
    ∧ circleC.Create = some { typeId := circleC, state := 0 }
    ∧ ({ typeId := circleC, state := 0 } : Obj).typeId = circleC
    ∧ ({ typeId := circleC, state := 0 } : Obj).IsKindOf shapeC = true :=
  ⟨(create_spec shapeC).1.mpr (by decide), rfl,
   ((create_spec circleC).2 { typeId := circleC, state := 0 } rfl).1,
   ((create_spec circleC).2 { typeId := circleC, state := 0 } rfl).2 shapeC (by decide)⟩

/-- C1 counterexample: `CopyFrom` does not require exact dynamic-type
equality.  A Circle object copies from a Disc object (a strictly more derived
type): the call returns true and modifies the destination although the two
`TypeId()` values differ, because the generated code checks
`cls::Cast(src)`, i.e. `IsKindOf`, which accepts any type derived from the
destination's class. -/
theorem copyFrom_counterexample :
    (objCircle.CopyFrom (some objDisc)).1 = true
    ∧ objCircle.typeId ≠ objDisc.typeId
    ∧ (objCircle.CopyFrom (some objDisc)).2 ≠ objCircle := by decide

/-- C1 (amended): for a class implemented with one of the copying macros
(`ON_OBJECT_IMPLEMENT` or `ON_OBJECT_IMPLEMENT_NO_COPYCTOR`),
`CopyFrom(other)` returns true and assigns state exactly when `other` is
non-null and `other`'s dynamic type is the destination's dynamic type or one
derived from it (ancestor compatibility via `Cast`/`IsKindOf`, not exact
TypeId equality); for the virtual-object and no-copy macros it always returns
false; whenever it returns false, the destination is unmodified, and a null
input always returns false. -/
theorem copyFrom_spec (o s : Obj) :
    ((o.CopyFrom (some s)).1 = true ↔
        o.typeId.copyAssignable = true ∧ s.typeId.IsDerivedFrom o.typeId = true)
    ∧ ((o.CopyFrom (some s)).1 = true → (o.CopyFrom (some s)).2 = o.assign s)
    ∧ ((o.CopyFrom (some s)).1 = false → (o.CopyFrom (some s)).2 = o)
    ∧ o.CopyFrom none = (false, o) := by
  by_cases hk : s.typeId.IsDerivedFrom o.typeId = true <;>
    cases h : o.typeId.kind <;>
      simp [Obj.CopyFrom, h, Cast, Obj.IsKindOf, hk, ClassId.copyAssignable]

/-- Witness for C1 (amended): Circle-from-Disc succeeds and assigns, while
Disc-from-Circle fails (Circle is not derived from Disc) and leaves the
destination unmodified. -/
theorem copyFrom_spec_witness :
    (objCircle.CopyFrom (some objDisc)).1 = true
    ∧ (objCircle.CopyFrom (some objDisc)).2 = objCircle.assign objDisc
    ∧ (objDisc.CopyFrom (some objCircle)).2 = objDisc :=
  ⟨(copyFrom_spec objCircle objDisc).1.mpr (by decide),
   (copyFrom_spec objCircle objDisc).2.1 (by decide),
   (copyFrom_spec objDisc objCircle).2.2.1 (by decide)⟩

/-- C8: `Duplicate()` returns none for classes implemented with the
virtual-object macro or the no-copy macro, and for classes implemented with
the copy-constructor macro it returns the deep copy produced by the cloning
hook `Internal_DeepCopy`, a copy equal to the original. -/
theorem duplicate_spec (o : Obj) :
    ((o.typeId.kind = .virtualObj ∨ o.typeId.kind = .noCopy) → o.Duplicate = none)
    ∧ (o.typeId.kind = .objectImpl →
        o.Duplicate = o.Internal_DeepCopy ∧ o.Duplicate = some o) := by
  cases h : o.typeId.kind <;>
    simp [Obj.Duplicate, Obj.Internal_DeepCopy, h]

/-- Witness for C8: a Shape (virtual-object macro) does not duplicate, a
Circle (copy-constructor macro) duplicates to an equal copy. -/
theorem duplicate_spec_witness :
    objShape.Duplicate = none ∧ objCircle.Duplicate = some objCircle :=
  ⟨(duplicate_spec objShape).1 (Or.inl rfl),
   ((duplicate_spec objCircle).2 rfl).2⟩

end TypeIdentityTheorems

/-! User-data subsystem: `ON_UserData` items attached to an `ON_Object` in a
singly linked list (`m_userdata_list`), with explicit attach/detach and the
copy/move merge algorithm. -/

/-- The nil UUID (`ON_nil_uuid`), modelled as `0` with UUIDs as naturals. -/
def nilUuid : Nat := 0

/-- An `ON_UserData` item: `userdata_uuid` models `m_userdata_uuid` (the key),
`userdata_copycount` models the signed `m_userdata_copycount`, and `payload`
stands for the application data carried by the derived user-data class. -/
structure UserData where
  userdata_uuid : Nat
  userdata_copycount : Int
  payload : Int
deriving DecidableEq, Repr

/-- The user-data-bearing part of an `ON_Object`: `userdata_list` models the
linked list headed by `m_userdata_list` (head = most recently attached), and
`other_state` stands for every other data member of the object. -/
structure ONObject where
  userdata_list : List UserData
  other_state : Int
deriving DecidableEq, Repr

namespace ONObject

/-- Modelled from the spec: the body of `ON_Object::GetUserData` is in
`opennurbs_object.cpp`, which is not among the sources.  The spec describes a
linear search of the attached chain by key. -/
def GetUserData (o : ONObject) (k : Nat) : Option UserData :=
  o.userdata_list.find? (fun u => u.userdata_uuid == k)

/-- `ON_Object::FirstUserData`: the head of the linked list, the most recently
attached item. -/
def FirstUserData (o : ONObject) : Option UserData :=
  o.userdata_list.head?

/-- Modelled from the spec: the body of `ON_Object::AttachUserData` is in
`opennurbs_object.cpp`, which is not among the sources.  Per the spec and the
header's remarks, the call fails when the item is null, its key
(`m_userdata_uuid`) is nil, or an item with the same key is already attached;
on success ownership transfers and the item becomes the head of the chain.
The returned pair is (success flag, updated object). -/
def AttachUserData (o : ONObject) (p : Option UserData) : Bool × ONObject :=
  match p with
  | none => (false, o)
  | some ud =>
      if ud.userdata_uuid = nilUuid then (false, o)
      else if (o.GetUserData ud.userdata_uuid).isSome then (false, o)
      else (true, { o with userdata_list := ud :: o.userdata_list })

/-- Modelled from the header's doc comment: the body of
`ON_Object::EmergencyDestroy` is in `opennurbs_object.cpp`, which is not among
the sources, but the header documents it as "Sets m_user_data_list = 0."
The first component is the updated object; the second component records the
user-data items destroyed by the call (none: the attached items are neither
destroyed nor individually detached, they merely become unreachable). -/
def EmergencyDestroy (o : ONObject) : ONObject × List UserData :=
  ({ o with userdata_list := [] }, [])

/-- Modelled from the spec: destroying an `ON_Object` destroys every user-data
item still attached to it (the destructor purges `m_userdata_list`).  The
result lists the items destroyed together with the object. -/
def destroyedOnDestruction (o : ONObject) : List UserData :=
  o.userdata_list

end ONObject

section UserDataTheorems

/-- C6: `AttachUserData(item)` returns false and leaves the object unchanged
exactly when the item is null, its key is nil, or an item with the same key is
already attached; when it returns true the item is the new head of the chain,
i.e. `FirstUserData()` returns it, and the rest of the object is untouched. -/
theorem attachUserData_spec (o : ONObject) (p : Option UserData) :
    ((o.AttachUserData p).1 = false ↔
        p = none ∨ ∃ ud, p = some ud ∧
          (ud.userdata_uuid = nilUuid ∨ (o.GetUserData ud.userdata_uuid).isSome = true))
    ∧ ((o.AttachUserData p).1 = false → (o.AttachUserData p).2 = o)
    ∧ ((o.AttachUserData p).1 = true →
        (o.AttachUserData p).2.FirstUserData = p
        ∧ (o.AttachUserData p).2.other_state = o.other_state) := by
  match p with
  | none => simp [ONObject.AttachUserData]
  | some ud =>
      by_cases h1 : ud.userdata_uuid = nilUuid
      · simp [ONObject.AttachUserData, h1]
      · by_cases h2 : (o.GetUserData ud.userdata_uuid).isSome = true
        · simp [ONObject.AttachUserData, h1, h2]
        · simp [ONObject.AttachUserData, h1, h2, ONObject.FirstUserData]

/-- Witness for C6: attaching a fresh item with key 5 succeeds and makes it the
chain head; attaching a nil-keyed item fails and changes nothing. -/
theorem attachUserData_spec_witness :
    (ONObject.AttachUserData ⟨[], 3⟩ (some ⟨5, 1, 0⟩)).1 = true
    ∧ (ONObject.AttachUserData ⟨[], 3⟩ (some ⟨5, 1, 0⟩)).2.FirstUserData = some ⟨5, 1, 0⟩
    ∧ (ONObject.AttachUserData ⟨[], 3⟩ (some ⟨nilUuid, 1, 0⟩)).2 = ⟨[], 3⟩ :=
  ⟨by decide,
   ((attachUserData_spec ⟨[], 3⟩ (some ⟨5, 1, 0⟩)).2.2 (by decide)).1,
   (attachUserData_spec ⟨[], 3⟩ (some ⟨nilUuid, 1, 0⟩)).2.1 (by decide)⟩

/-- C10: `EmergencyDestroy()` nulls the user-data list pointer and changes
nothing else: it destroys no user-data item, afterwards `FirstUserData()`
returns none, a subsequent destruction of the object destroys no user data,
and every other data member is unchanged. -/
theorem emergencyDestroy_spec (o : ONObject) :
    o.EmergencyDestroy.1.userdata_list = []
    ∧ o.EmergencyDestroy.1.other_state = o.other_state
    ∧ o.EmergencyDestroy.2 = []
    ∧ o.EmergencyDestroy.1.FirstUserData = none
    ∧ o.EmergencyDestroy.1.destroyedOnDestruction = [] := by
  simp [ONObject.EmergencyDestroy, ONObject.FirstUserData,
    ONObject.destroyedOnDestruction]

end UserDataTheorems

/-! The user-data merge algorithm of `ON_Object::CopyUserData` and
`ON_Object::MoveUserData`. -/

/-- `ON_Object::UserDataConflictResolution`, with the meanings given by the
enum's comments in the header. -/
inductive UserDataConflictResolution where
  | destination_object
  | source_object
  | source_copycount_gt
  | source_copycount_ge
  | destination_copycount_gt
  | destination_copycount_ge
  | delete_item
deriving DecidableEq, Repr

/-- Outcome of resolving a key collision between a source item and an item
already attached to the destination. -/
inductive ConflictOutcome where
  | keepDestination
  | replaceWithSource
  | deleteDestination
deriving DecidableEq, Repr

/-- Modelled from the spec: the conflict-resolution step of
`ON_Object::TransferUserDataItem` is in `opennurbs_object.cpp`, which is not
among the sources.  The effect of each policy is the one stated by the enum
comments in the header and by the spec's policy table:
`destination_object` keeps the destination item; `source_object` replaces
unconditionally; `source_copycount_gt` / `source_copycount_ge` replace when
the source copy count is greater / at least the destination's;
`destination_copycount_gt` / `destination_copycount_ge` keep the destination
when its copy count is greater / at least the source's, otherwise replace;
`delete_item` removes the destination item without installing the source's. -/
def resolveConflict (policy : UserDataConflictResolution)
    (sourceCount destCount : Int) : ConflictOutcome :=
  match policy with
  | .destination_object => .keepDestination
  | .source_object => .replaceWithSource
  | .source_copycount_gt =>
      if sourceCount > destCount then .replaceWithSource else .keepDestination
  | .source_copycount_ge =>
      if sourceCount ≥ destCount then .replaceWithSource else .keepDestination
  | .destination_copycount_gt =>
      if destCount > sourceCount then .keepDestination else .replaceWithSource
  | .destination_copycount_ge =>
      if destCount ≥ sourceCount then .keepDestination else .replaceWithSource
  | .delete_item => .deleteDestination

/-- A source item participates in the merge when its copy count is strictly
positive and, when the filter key is not nil, its key matches the filter. -/
def admissible (filterKey : Nat) (u : UserData) : Bool :=
  (0 < u.userdata_copycount) && (filterKey == nilUuid || u.userdata_uuid == filterKey)

/-- Remove the destination item with the given key. -/
def removeKey (k : Nat) (l : List UserData) : List UserData :=
  l.filter (fun x => x.userdata_uuid != k)

/-- Modelled from the spec: the loop shared by `ON_Object::CopyUserData` and
`ON_Object::MoveUserData` (both funnel through the private
`ON_Object::TransferUserDataItem`, whose body is in `opennurbs_object.cpp`,
which is not among the sources).  It walks the source chain; each admissible
item is installed when the destination has no item with the same key, and
otherwise handled per `resolveConflict`; `n` counts the destination items
added, replaced or removed; `notMoved` accumulates the source items that were
not transferred to the destination (skipped or kept-destination collisions). -/
def mergeLoop (policy : UserDataConflictResolution) (filterKey : Nat) :
    List UserData → Nat → ONObject → List UserData → Nat × ONObject × List UserData
  | [], n, dst, notMoved => (n, dst, notMoved)
  | u :: rest, n, dst, notMoved =>
      if admissible filterKey u then
        match dst.GetUserData u.userdata_uuid with
        | none =>
            mergeLoop policy filterKey rest (n + 1)
              { dst with userdata_list := u :: dst.userdata_list } notMoved
        | some d =>
            match resolveConflict policy u.userdata_copycount d.userdata_copycount with
            | .keepDestination =>
                mergeLoop policy filterKey rest n dst (notMoved ++ [u])
            | .replaceWithSource =>
                mergeLoop policy filterKey rest (n + 1)
                  { dst with userdata_list := u :: removeKey u.userdata_uuid dst.userdata_list }
                  notMoved
            | .deleteDestination =>
                mergeLoop policy filterKey rest (n + 1)
                  { dst with userdata_list := removeKey u.userdata_uuid dst.userdata_list }
                  (notMoved ++ [u])
      else
        mergeLoop policy filterKey rest n dst (notMoved ++ [u])

/-- Modelled from the spec: `ON_Object::CopyUserData(source, filterKey,
policy)` runs the merge over the source chain, installing copies into the
destination, and returns the number of destination items added, replaced or
removed; the source object is not modified by a copy. -/
def ONObject.CopyUserData (dst src : ONObject) (filterKey : Nat)
    (policy : UserDataConflictResolution) : Nat × ONObject :=
  let r := mergeLoop policy filterKey src.userdata_list 0 dst []
  (r.1, r.2.1)

/-- Modelled from the spec: `ON_Object::MoveUserData(source, filterKey,
policy, bDeleteAllSourceItems)` runs the same merge, transferring ownership of
the moved items; source items not moved remain on the source unless
`bDeleteAllSourceItems` is set, in which case they are destroyed and the
source is left with no attached data.  The result is (count, destination,
source). -/
def ONObject.MoveUserData (dst src : ONObject) (filterKey : Nat)
    (policy : UserDataConflictResolution) (bDeleteAllSourceItems : Bool) :
    Nat × ONObject × ONObject :=
  let r := mergeLoop policy filterKey src.userdata_list 0 dst []
  (r.1, r.2.1,
    { src with userdata_list := if bDeleteAllSourceItems then [] else r.2.2 })

/-- The source restricted to its admissible items (strictly positive copy
count, matching the filter key when it is not nil). -/
def restrictSource (filterKey : Nat) (src : ONObject) : ONObject :=
  { src with userdata_list := src.userdata_list.filter (admissible filterKey) }

section MergeTheorems

/-- Helper: the count and destination produced by the merge loop do not depend
on the accumulated not-moved list. -/
theorem mergeLoop_indep_notMoved (policy : UserDataConflictResolution)
    (filterKey : Nat) (l : List UserData) (n : Nat) (dst : ONObject)
    (nm nm' : List UserData) :
    (mergeLoop policy filterKey l n dst nm).1
        = (mergeLoop policy filterKey l n dst nm').1
    ∧ (mergeLoop policy filterKey l n dst nm).2.1
        = (mergeLoop policy filterKey l n dst nm').2.1 := by
  induction l generalizing n dst nm nm' with
  | nil => simp [mergeLoop]
  | cons u rest ih =>
      by_cases ha : admissible filterKey u = true
      · rcases hg : dst.GetUserData u.userdata_uuid with _ | d
        · simpa [mergeLoop, ha, hg] using ih _ _ nm nm'
        · rcases hr : resolveConflict policy u.userdata_copycount d.userdata_copycount with _ | _ | _ <;>
            simpa [mergeLoop, ha, hg, hr] using ih _ _ _ _
      · simpa [mergeLoop, ha] using ih n dst (nm ++ [u]) (nm' ++ [u])

/-- Helper: restricting the walked chain to its admissible items changes
neither the count nor the resulting destination. -/
theorem mergeLoop_filter_admissible (policy : UserDataConflictResolution)
    (filterKey : Nat) (l : List UserData) (n : Nat) (dst : ONObject)
    (nm nm' : List UserData) :
    (mergeLoop policy filterKey (l.filter (admissible filterKey)) n dst nm).1
        = (mergeLoop policy filterKey l n dst nm').1
    ∧ (mergeLoop policy filterKey (l.filter (admissible filterKey)) n dst nm).2.1
        = (mergeLoop policy filterKey l n dst nm').2.1 := by
  induction l generalizing n dst nm nm' with
  | nil => simp [mergeLoop]
  | cons u rest ih =>
      by_cases ha : admissible filterKey u = true
      · rcases hg : dst.GetUserData u.userdata_uuid with _ | d
        · simpa [mergeLoop, ha, hg, List.filter_cons, ha] using ih _ _ nm nm'
        · rcases hr : resolveConflict policy u.userdata_copycount d.userdata_copycount with _ | _ | _ <;>
            simpa [mergeLoop, ha, hg, hr, List.filter_cons] using ih _ _ _ _
      · simp only [List.filter_cons, ha, Bool.false_eq_true, if_false, mergeLoop, ha]
        exact ih n dst nm (nm' ++ [u])

/-- C2 counterexample: with destination and source each holding an item with
the same key and equal copy counts 5 and 5, policy `destination_copycount_gt`
does not keep the destination item: equal counts fail the strict comparison
`destination copycount > source copycount`, so the source item replaces the
destination item. -/
theorem userdata_merge_counterexample :
    (ONObject.CopyUserData ⟨[⟨1, 5, 10⟩], 0⟩ ⟨[⟨1, 5, 20⟩], 0⟩ nilUuid
        UserDataConflictResolution.destination_copycount_gt).2
      ≠ (⟨[⟨1, 5, 10⟩], 0⟩ : ONObject)
    ∧ (ONObject.CopyUserData ⟨[⟨1, 5, 10⟩], 0⟩ ⟨[⟨1, 5, 20⟩], 0⟩ nilUuid
        UserDataConflictResolution.destination_copycount_gt).2.userdata_list
      = [⟨1, 5, 20⟩] := by decide

/-- C2 (amended): `CopyUserData` and `MoveUserData` consider only source items
whose copy count is strictly positive (and only items matching the filter key
when it is not nil) — restricting the source chain to those items changes
neither the returned count nor the resulting destination; when the destination
already holds an item with the source item's key and the two copy counts are
equal, policy `source_copycount_ge` replaces the destination item (equal
counts satisfy the inclusive comparison) and policy
`destination_copycount_gt` also replaces it (the destination is kept only when
its copy count is strictly greater). -/
theorem userdata_merge_spec (dst src : ONObject) (f : Nat)
    (p : UserDataConflictResolution) (b : Bool) (d s : UserData) (x y : Int) :
    dst.CopyUserData src f p = dst.CopyUserData (restrictSource f src) f p
    ∧ (dst.MoveUserData src f p b).1 = (dst.MoveUserData (restrictSource f src) f p b).1
    ∧ (dst.MoveUserData src f p b).2.1 = (dst.MoveUserData (restrictSource f src) f p b).2.1
    ∧ (d.userdata_uuid = s.userdata_uuid → 0 < s.userdata_copycount →
        s.userdata_copycount = d.userdata_copycount →
        (ONObject.CopyUserData ⟨[d], x⟩ ⟨[s], y⟩ nilUuid
            UserDataConflictResolution.source_copycount_ge).2.userdata_list = [s]
        ∧ (ONObject.CopyUserData ⟨[d], x⟩ ⟨[s], y⟩ nilUuid
            UserDataConflictResolution.destination_copycount_gt).2.userdata_list = [s]) := by
  have hf := mergeLoop_filter_admissible p f src.userdata_list 0 dst [] []
  refine ⟨?_, ?_, ?_, ?_⟩
  · simp only [ONObject.CopyUserData, restrictSource]
    exact Prod.ext hf.1.symm hf.2.symm
  · simp only [ONObject.MoveUserData, restrictSource]
    exact hf.1.symm
  · simp only [ONObject.MoveUserData, restrictSource]
    exact hf.2.symm
  · intro h1 h2 h3
    have hadm : admissible nilUuid s = true := by
      simp [admissible, h2]
    have hget : (ONObject.GetUserData ⟨[d], x⟩ s.userdata_uuid) = some d := by
      simp [ONObject.GetUserData, List.find?, h1]
    have hcnt : d.userdata_copycount = s.userdata_copycount := h3.symm
    constructor
    · have hr : resolveConflict UserDataConflictResolution.source_copycount_ge
          s.userdata_copycount d.userdata_copycount = ConflictOutcome.replaceWithSource := by
        simp [resolveConflict, hcnt]
      simp [ONObject.CopyUserData, mergeLoop, hadm, hget, hr, removeKey,
        List.filter, h1]
    · have hr : resolveConflict UserDataConflictResolution.destination_copycount_gt
          s.userdata_copycount d.userdata_copycount = ConflictOutcome.replaceWithSource := by
        simp [resolveConflict, hcnt]
      simp [ONObject.CopyUserData, mergeLoop, hadm, hget, hr, removeKey,
        List.filter, h1]

/-- Witness for C2 (amended) at equal copy counts 5 and 5: both
`source_copycount_ge` and `destination_copycount_gt` replace the destination
item, and restricting a source with a non-positive item changes nothing. -/
theorem userdata_merge_spec_witness :
    (ONObject.CopyUserData ⟨[⟨1, 5, 10⟩], 0⟩ ⟨[⟨1, 5, 20⟩], 0⟩ nilUuid
        UserDataConflictResolution.source_copycount_ge).2.userdata_list = [⟨1, 5, 20⟩]
    ∧ (ONObject.CopyUserData ⟨[⟨1, 5, 10⟩], 0⟩ ⟨[⟨1, 5, 20⟩], 0⟩ nilUuid
        UserDataConflictResolution.destination_copycount_gt).2.userdata_list = [⟨1, 5, 20⟩]
    ∧ ONObject.CopyUserData ⟨[], 0⟩ ⟨[⟨1, -2, 20⟩], 0⟩ nilUuid
        UserDataConflictResolution.source_object
      = ONObject.CopyUserData ⟨[], 0⟩
          (restrictSource nilUuid ⟨[⟨1, -2, 20⟩], 0⟩) nilUuid
          UserDataConflictResolution.source_object := by
  refine ⟨?_, ?_, ?_⟩
  · exact ((userdata_merge_spec ⟨[], 0⟩ ⟨[], 0⟩ nilUuid
      UserDataConflictResolution.source_object false
      ⟨1, 5, 10⟩ ⟨1, 5, 20⟩ 0 0).2.2.2 rfl (by decide) rfl).1
  · exact ((userdata_merge_spec ⟨[], 0⟩ ⟨[], 0⟩ nilUuid
      UserDataConflictResolution.source_object false
      ⟨1, 5, 10⟩ ⟨1, 5, 20⟩ 0 0).2.2.2 rfl (by decide) rfl).2
  · exact (userdata_merge_spec ⟨[], 0⟩ ⟨[⟨1, -2, 20⟩], 0⟩ nilUuid
      UserDataConflictResolution.source_object false
      ⟨1, 5, 10⟩ ⟨1, 5, 20⟩ 0 0).1

end MergeTheorems

/-! The process-wide class-id registry: the linked list of `ON_ClassId`
objects rooted at `m_p0`, each carrying a name, a uuid and a generation mark,
with lookup by name (`ON_ClassId::ClassId(const char*)`), lookup by uuid
(`ON_ClassId::ClassId(ON_UUID)`) and generation-tagged bulk removal
(`ON_ClassId::Purge`). -/

/-- One live descriptor as seen by the registry: `sClassName` models
`m_sClassName`, `uuid` models `m_uuid`, `mark` models `m_mark`. -/
structure RegEntry where
  sClassName : String
  uuid : Nat
  mark : Int
deriving DecidableEq, Repr

/-- The registry: the linked list of live `ON_ClassId` objects in insertion
order. -/
structure ClassIdList where
  entries : List RegEntry
deriving DecidableEq, Repr

namespace ClassIdList

/-- Modelled from the spec: the body of `ON_ClassId::ClassId(const char*)` is
in `opennurbs_object.cpp`, which is not among the sources.  The spec describes
a linear scan of the live descriptors by name. -/
def lookupByName (r : ClassIdList) (n : String) : Option RegEntry :=
  r.entries.find? (fun e => e.sClassName == n)

/-- Modelled from the spec: the body of `ON_ClassId::ClassId(ON_UUID)` is in
`opennurbs_object.cpp`, which is not among the sources.  The spec describes a
linear scan of the live descriptors by identifier. -/
def lookupByUuid (r : ClassIdList) (u : Nat) : Option RegEntry :=
  r.entries.find? (fun e => e.uuid == u)

/-- Modelled from the spec: the body of `ON_ClassId::Purge` is in
`opennurbs_object.cpp`, which is not among the sources.  The spec says it
"removes and destroys every descriptor whose generation equals the argument"
and returns the number of classes purged. -/
def Purge (r : ClassIdList) (mark : Int) : Nat × ClassIdList :=
  ((r.entries.filter (fun e => e.mark == mark)).length,
   ⟨r.entries.filter (fun e => e.mark != mark)⟩)

end ClassIdList

section RegistryTheorems

/-- Helper: filtering a list keeps the result of `find?` when the found
element satisfies the filter. -/
theorem find?_filter_keep {α : Type} (l : List α) (q keep : α → Bool) (d : α)
    (h1 : l.find? q = some d) (h2 : keep d = true) :
    (l.filter keep).find? q = some d := by
  induction l with
  | nil => simp at h1
  | cons a rest ih =>
      by_cases hq : q a = true
      · rw [List.find?_cons_of_pos _ hq] at h1
        obtain rfl : a = d := by simpa using h1
        simp [List.filter_cons, h2, List.find?_cons_of_pos _ hq]
      · rw [List.find?_cons_of_neg _ (by simpa using hq)] at h1
        by_cases hk : keep a = true
        · rw [List.filter_cons, if_pos hk, List.find?_cons_of_neg _ (by simpa using hq)]
          exact ih h1
        · simp only [List.filter_cons, hk, Bool.false_eq_true, if_false]
          exact ih h1

/-- C5: `Purge(g)` removes exactly the live descriptors whose generation mark
equals `g` and returns their count; every descriptor with a different mark
remains in the registry, and a descriptor found by `lookupByName` or
`lookupByUuid` before the purge whose mark differs from `g` is still found by
the same lookup afterwards. -/
theorem purge_spec (r : ClassIdList) (g : Int) (d : RegEntry) (n : String) (u : Nat) :
    ((r.Purge g).1 = (r.entries.filter (fun e => e.mark == g)).length
      ∧ (r.Purge g).1 + (r.Purge g).2.entries.length = r.entries.length)
    ∧ (d ∈ (r.Purge g).2.entries ↔ d ∈ r.entries ∧ d.mark ≠ g)
    ∧ (r.lookupByName n = some d → d.mark ≠ g →
        (r.Purge g).2.lookupByName n = some d)
    ∧ (r.lookupByUuid u = some d → d.mark ≠ g →
        (r.Purge g).2.lookupByUuid u = some d) := by
  refine ⟨⟨rfl, ?_⟩, ?_, ?_, ?_⟩
  · show (r.entries.filter (fun e => e.mark == g)).length
        + (r.entries.filter (fun e => e.mark != g)).length = r.entries.length
    have h := List.length_eq_length_filter_add (l := r.entries)
      (fun e => e.mark == g)
    simpa [bne] using h.symm
  · simp [ClassIdList.Purge, List.mem_filter, bne]
  · intro h1 h2
    exact find?_filter_keep r.entries _ _ d h1 (by simpa [bne] using h2)
  · intro h1 h2
    exact find?_filter_keep r.entries _ _ d h1 (by simpa [bne] using h2)

/-- Witness for C5: a three-entry registry where exactly the two entries with
mark 7 are purged, and the surviving entry with mark 3 is still found by name
and by uuid. -/
theorem purge_spec_witness :
    (ClassIdList.Purge ⟨[⟨"A", 1, 3⟩, ⟨"B", 2, 7⟩, ⟨"C", 3, 7⟩]⟩ 7).1 = 2
    ∧ (ClassIdList.Purge ⟨[⟨"A", 1, 3⟩, ⟨"B", 2, 7⟩, ⟨"C", 3, 7⟩]⟩ 7).2.lookupByName "A"
        = some ⟨"A", 1, 3⟩
    ∧ (ClassIdList.Purge ⟨[⟨"A", 1, 3⟩, ⟨"B", 2, 7⟩, ⟨"C", 3, 7⟩]⟩ 7).2.lookupByUuid 1
        = some ⟨"A", 1, 3⟩ :=
  ⟨by decide,
   (purge_spec ⟨[⟨"A", 1, 3⟩, ⟨"B", 2, 7⟩, ⟨"C", 3, 7⟩]⟩ 7 ⟨"A", 1, 3⟩ "A" 1).2.2.1
     (by decide) (by decide),
   (purge_spec ⟨[⟨"A", 1, 3⟩, ⟨"B", 2, 7⟩, ⟨"C", 3, 7⟩]⟩ 7 ⟨"A", 1, 3⟩ "A" 1).2.2.2
     (by decide) (by decide)⟩

end RegistryTheorems

/-! The aggregate component-status cache.  The virtual component-status
members of `ON_Object` are implemented on `ON_SubD` and `ON_Brep`, whose code
is not among the sources; this model follows the spec's description of the
cache: states Clean and Dirty, every state-mutating call forces Dirty,
`AggregateComponentStatus` recomputes (observable through an instrumented
counter) only when Dirty and then transitions to Clean. -/

/-- Modelled from the spec: a component-status-bearing entity.  `components`
holds the per-component status bit sets (`ON_ComponentStatus` modelled as a
natural-number bit set), `aggregate_dirty` and `cached_aggregate` form the
`ComponentStatusCache`, and `recompute_count` is the instrumented counter the
spec's testable property refers to. -/
structure ComponentModel where
  components : List Nat
  aggregate_dirty : Bool
  cached_aggregate : Nat
  recompute_count : Nat
deriving DecidableEq, Repr

/-- Fold of the individual component statuses into one aggregate summary
(bitwise union). -/
def computeAggregate (cs : List Nat) : Nat :=
  cs.foldl (fun a b => a ||| b) 0

namespace ComponentModel

/-- Modelled from the spec: `AggregateComponentStatus()` — if the cache is
Dirty, rescan the components, fold their statuses into a summary, store it,
transition to Clean and bump the instrumentation counter; if Clean, return the
cached summary without rescanning. -/
def AggregateComponentStatus (m : ComponentModel) : Nat × ComponentModel :=
  if m.aggregate_dirty then
    let a := computeAggregate m.components
    (a, { m with aggregate_dirty := false, cached_aggregate := a,
                 recompute_count := m.recompute_count + 1 })
  else
    (m.cached_aggregate, m)

/-- `MarkAggregateComponentStatusAsNotCurrent()`: forces the cache Dirty. -/
def MarkAggregateComponentStatusAsNotCurrent (m : ComponentModel) : ComponentModel :=
  { m with aggregate_dirty := true }

/-- Modelled from the spec: `SetComponentStates(component_index,
states_to_set)` sets the given status bits on one component and forces the
cache Dirty. -/
def SetComponentStates (m : ComponentModel) (i : Nat) (states : Nat) : ComponentModel :=
  { m with components := m.components.set i ((m.components.getD i 0) ||| states),
           aggregate_dirty := true }

/-- Modelled from the spec: `ClearComponentStates(component_index,
states_to_clear)` clears the given status bits on one component and forces the
cache Dirty. -/
def ClearComponentStates (m : ComponentModel) (i : Nat) (states : Nat) : ComponentModel :=
  { m with components := m.components.set i (Nat.ldiff (m.components.getD i 0) states),
           aggregate_dirty := true }

/-- Modelled from the spec: `SetComponentStatus(component_index,
status_to_copy)` copies a full status onto one component and forces the cache
Dirty. -/
def SetComponentStatus (m : ComponentModel) (i : Nat) (status : Nat) : ComponentModel :=
  { m with components := m.components.set i status,
           aggregate_dirty := true }

/-- Modelled from the spec: `DeleteComponents(ci_list, ci_count)` deletes the
listed components and forces the cache Dirty. -/
def DeleteComponents (m : ComponentModel) (idxs : List Nat) : ComponentModel :=
  let kept :=
    (m.components.enum.filter (fun ji => !(idxs.contains ji.1))).map (fun ji => ji.2)
  { m with components := kept, aggregate_dirty := true }

end ComponentModel

section StatusCacheTheorems

/-- C7: `AggregateComponentStatus()` recomputes the aggregate by scanning the
components and transitions the cache to Clean exactly when the cache is Dirty,
and returns the cached summary with no rescan (state unchanged) when Clean;
each state-mutating call (`SetComponentStates`, `ClearComponentStates`,
`SetComponentStatus`, `DeleteComponents`,
`MarkAggregateComponentStatusAsNotCurrent`) forces the cache Dirty, so the
next `AggregateComponentStatus()` after such a call recomputes, while an
immediately repeated call with no intervening mutation does not recompute and
leaves the state unchanged. -/
theorem aggregateComponentStatus_cache_spec (m : ComponentModel)
    (i st : Nat) (idxs : List Nat) :
    (m.aggregate_dirty = true →
        m.AggregateComponentStatus.2.recompute_count = m.recompute_count + 1
        ∧ m.AggregateComponentStatus.1 = computeAggregate m.components
        ∧ m.AggregateComponentStatus.2.aggregate_dirty = false)
    ∧ (m.aggregate_dirty = false →
        m.AggregateComponentStatus.2 = m
        ∧ m.AggregateComponentStatus.1 = m.cached_aggregate)
    ∧ (m.SetComponentStates i st).aggregate_dirty = true
    ∧ (m.ClearComponentStates i st).aggregate_dirty = true
    ∧ (m.SetComponentStatus i st).aggregate_dirty = true
    ∧ (m.DeleteComponents idxs).aggregate_dirty = true
    ∧ m.MarkAggregateComponentStatusAsNotCurrent.aggregate_dirty = true
    ∧ (m.SetComponentStates i st).AggregateComponentStatus.2.recompute_count
        = (m.SetComponentStates i st).recompute_count + 1
    ∧ m.AggregateComponentStatus.2.AggregateComponentStatus.2
        = m.AggregateComponentStatus.2
    ∧ m.AggregateComponentStatus.2.AggregateComponentStatus.2.recompute_count
        = m.AggregateComponentStatus.2.recompute_count := by
  by_cases h : m.aggregate_dirty = true <;>
    simp [ComponentModel.AggregateComponentStatus, h,
      ComponentModel.SetComponentStates, ComponentModel.ClearComponentStates,
      ComponentModel.SetComponentStatus, ComponentModel.DeleteComponents,
      ComponentModel.MarkAggregateComponentStatusAsNotCurrent]

/-- Witness for C7: starting from a clean two-component cache, a mutation
makes the next aggregation recompute, and an immediately repeated call does
not. -/
theorem aggregateComponentStatus_cache_spec_witness :
    (ComponentModel.AggregateComponentStatus
        ⟨[1, 2], false, 3, 0⟩).2 = ⟨[1, 2], false, 3, 0⟩
    ∧ (ComponentModel.SetComponentStates ⟨[1, 2], false, 3, 0⟩ 0 4).aggregate_dirty = true
    ∧ (ComponentModel.SetComponentStates
        ⟨[1, 2], false, 3, 0⟩ 0 4).AggregateComponentStatus.2.recompute_count = 1
    ∧ (ComponentModel.AggregateComponentStatus
        ⟨[1, 2], true, 3, 0⟩).2.AggregateComponentStatus.2.recompute_count = 1 :=
  ⟨((aggregateComponentStatus_cache_spec ⟨[1, 2], false, 3, 0⟩ 0 4 []).2.1 rfl).1,
   (aggregateComponentStatus_cache_spec ⟨[1, 2], false, 3, 0⟩ 0 4 []).2.2.1,
   by decide,
   by decide⟩

end StatusCacheTheorems

end OpenNURBS
